import Mathlib

/-!
Verification of the asn-fetcher provider layer.

Shallow embedding of the pure parts of three ASN lookup providers
(`Ripe` in src/asn/ripe.rs, `IPApi` in src/asn/ipapi.rs, `TeamCymruWhois`
in src/asn/teamcymru.rs), the shared error helpers (src/asn/client.rs)
and the provider selector (src/main.rs).

Modelling conventions:
- `serde_json::Value` becomes the inductive `Json`; JSON numbers are
  modelled as unbounded integers, with `asU64` succeeding exactly on
  integers in `[0, 2^64)` (mirroring `Value::as_u64`).
- transport effects (HTTP send, subprocess spawn) are oracles: an
  `HttpResponse` record, an optional parsed `Json` body standing for the
  result of `serde_json::from_str`, and a `SpawnResult` for the whois
  subprocess; captured stdout is modelled as its list of lines.
- `std::io::Error` becomes `IoError` (kind + message).
-/

set_option autoImplicit false

namespace AsnFetcher

/-! ## String primitives

Rust's `str::split(char)`, `str::trim` and "begins with" are modelled
structurally over `String.data` so that the kernel can evaluate them
(the core-library `String.splitOn`/`trim` use well-founded recursion).
`trimChars` trims the ASCII whitespace relevant to whois output. -/

/-- `str::split(c)`: splitting an empty string yields one empty piece. -/
def splitOnChar (c : Char) : List Char → List (List Char)
  | [] => [[]]
  | x :: xs =>
    if x = c then
      [] :: splitOnChar c xs
    else
      match splitOnChar c xs with
      | g :: gs => (x :: g) :: gs
      | [] => [[x]]

/-- `str::split(c)` lifted to `String`. -/
def strSplitOnChar (c : Char) (s : String) : List String :=
  (splitOnChar c s.data).map List.asString

/-- `str::trim` on the character list: drop whitespace at both ends. -/
def trimChars (cs : List Char) : List Char :=
  ((cs.dropWhile Char.isWhitespace).reverse.dropWhile Char.isWhitespace).reverse

/-- `str::trim` lifted to `String`. -/
def strTrim (s : String) : String :=
  (trimChars s.data).asString

/-- Boolean list-prefix test (structural). -/
def isPrefixList : List Char → List Char → Bool
  | [], _ => true
  | _ :: _, [] => false
  | c :: cs, d :: ds => if c = d then isPrefixList cs ds else false

/-- `s` begins with `pre` (the property claimed of error messages). -/
def strStartsWith (s pre : String) : Bool :=
  isPrefixList pre.data s.data

/-- The canonical record `AsnInfo` from src/asn/types.rs. -/
structure AsnInfo where
  asn : String
  holder : String
deriving DecidableEq, Repr

/-- The `std::io::ErrorKind` values used by the providers. -/
inductive ErrorKind where
  | timedOut
  | connectionRefused
  | invalidData
  | other
deriving DecidableEq, Repr

/-- A `std::io::Error`: a kind plus its human-readable message. -/
structure IoError where
  kind : ErrorKind
  msg : String
deriving DecidableEq, Repr

/-- `serde_json::Value`, with numbers modelled as unbounded integers. -/
inductive Json where
  | null
  | bool (b : Bool)
  | num (n : Int)
  | str (s : String)
  | arr (elems : List Json)
  | obj (fields : List (String × Json))

/-- First binding of a key in an association list (JSON object fields). -/
def lookupField : List (String × Json) → String → Option Json
  | [], _ => none
  | (k, v) :: rest, key => if k = key then some v else lookupField rest key

/-- `Value::get(key)`: `some` field value on objects, `none` otherwise. -/
def Json.get (j : Json) (key : String) : Option Json :=
  match j with
  | .obj fields => lookupField fields key
  | _ => none

/-- The `Value` index operator `json[key]`: the field value, or `Null`
when the key is missing or the value is not an object (never panics). -/
def Json.index (j : Json) (key : String) : Json :=
  (j.get key).getD Json.null

/-- `Value::as_bool`. -/
def Json.asBool : Json → Option Bool
  | .bool b => some b
  | _ => none

/-- `Value::as_str`. -/
def Json.asStr : Json → Option String
  | .str s => some s
  | _ => none

/-- `Value::as_array`. -/
def Json.asArr : Json → Option (List Json)
  | .arr xs => some xs
  | _ => none

/-- `Value::as_u64`: succeeds exactly on integers representable as u64. -/
def Json.asU64 : Json → Option Nat
  | .num n => if 0 ≤ n ∧ n < 2 ^ 64 then some n.toNat else none
  | _ => none

/-- `format_provider_error` from src/asn/client.rs: `[Provider] message`. -/
def format_provider_error (provider message : String) : String :=
  "[" ++ provider ++ "] " ++ message

/-! ## Provider A — Ripe (src/asn/ripe.rs) -/

/-- The per-element mapping in `Ripe::lookup_asn` (ripe.rs lines 64-79):
`asn_obj["asn"].as_u64()` rendered in decimal, else `"N/A"`;
`asn_obj["holder"].as_str()`, else `"Unknown"`. -/
def ripeRecord (asn_obj : Json) : AsnInfo :=
  let asn :=
    match (asn_obj.index "asn").asU64 with
    | some n => Nat.repr n
    | none => "N/A"
  let holder :=
    match (asn_obj.index "holder").asStr with
    | some s => s
    | none => "Unknown"
  ⟨asn, holder⟩

/-- `Ripe::lookup_asn` after the body has been parsed to JSON
(ripe.rs lines 47-83): require `data`, then `asns` as an array,
then map `ripeRecord` over the elements. -/
def ripeProcess (json_data : Json) : Except IoError (List AsnInfo) :=
  match json_data.get "data" with
  | none => .error ⟨.invalidData, "Missing 'data' field in response"⟩
  | some data =>
    match (data.get "asns").bind Json.asArr with
    | none => .error ⟨.invalidData, "Missing or invalid 'asns' field in response"⟩
    | some asns_array => .ok (asns_array.map ripeRecord)

/-! ## Provider B — IPApi (src/asn/ipapi.rs) -/

/-- An HTTP response as seen by `IPApi::lookup_asn`: whether
`status().is_success()`, the `Display` of the status, and the body text. -/
structure HttpResponse where
  statusSuccess : Bool
  statusText : String
  body : String

/-- `std::env::var` over an explicit environment (first binding wins). -/
def lookupEnv : List (String × String) → String → Option String
  | [], _ => none
  | (k, v) :: rest, key => if k = key then some v else lookupEnv rest key

/-- The URL built by `IPApi::lookup_asn` (ipapi.rs lines 26-29): reads
`IPAPI_API_KEY` from the process environment at call time. -/
def ipapiUrl (env : List (String × String)) (ip : String) : String :=
  match lookupEnv env "IPAPI_API_KEY" with
  | some api_key => "https://ipapi.co/" ++ ip ++ "/json?key=" ++ api_key
  | none => "https://ipapi.co/" ++ ip ++ "/json"

/-- `IPApi::lookup_asn` after the HTTP send (ipapi.rs lines 33-76).
`parsed` is the result of `serde_json::from_str` on `response.body`:
`none` when the body is not valid JSON. -/
def ipapiProcess (response : HttpResponse) (parsed : Option Json) :
    Except IoError (List AsnInfo) :=
  if response.statusSuccess = false then
    .error ⟨.other, "HTTP error: " ++ response.statusText⟩
  else
    match parsed with
    | none =>
      .error ⟨.invalidData, "API returned non-JSON response: " ++ response.body⟩
    | some json =>
      match (json.get "error").bind Json.asBool with
      | some true =>
        let message := ((json.get "reason").bind Json.asStr).getD "Unknown error"
        .error ⟨.other, "API error: " ++ message⟩
      | _ =>
        let asn := ((json.get "asn").bind Json.asStr).getD "Unknown"
        let holder := ((json.get "org").bind Json.asStr).getD "Unknown"
        .ok [⟨asn, holder⟩]

/-! ## Provider C — TeamCymruWhois (src/asn/teamcymru.rs) -/

/-- `TeamCymruWhois::parse_asn_info` (teamcymru.rs lines 21-29):
split on `|`; exactly 3 parts yield a record from parts 0 and 2 trimmed,
anything else yields `None`. -/
def parse_asn_info (line : String) : Option AsnInfo :=
  match strSplitOnChar '|' line with
  | [p0, _p1, p2] => some ⟨strTrim p0, strTrim p2⟩
  | _ => none

/-- `Iterator::map_while`: map until the first `none`, then stop. -/
def mapWhile {α β : Type} (f : α → Option β) : List α → List β
  | [] => []
  | a :: rest =>
    match f a with
    | some b => b :: mapWhile f rest
    | none => []

/-- The stdout handling of `TeamCymruWhois::lookup_asn` (teamcymru.rs
lines 69-75): skip the header line, then `map_while(parse_asn_info)`. -/
def cymruParseStdout (stdoutLines : List String) : List AsnInfo :=
  mapWhile parse_asn_info (stdoutLines.drop 1)

/-- Result of spawning the whois subprocess: an OS spawn failure, or an
exit with a status, captured stderr text, and captured stdout lines. -/
inductive SpawnResult where
  | spawnError (os_error : String)
  | exited (success : Bool) (stderrText : String) (stdoutLines : List String)

/-- `TeamCymruWhois::lookup_asn` (teamcymru.rs lines 39-77) as a function
of the spawn outcome. -/
def cymruLookup : SpawnResult → Except IoError (List AsnInfo)
  | .spawnError e =>
    .error ⟨.other,
      format_provider_error "TeamCymruWhois"
        ("Command failed: " ++ e ++ ", is whois installed?")⟩
  | .exited false stderrText _ =>
    .error ⟨.other,
      format_provider_error "TeamCymruWhois"
        ("Command failed: " ++ strTrim stderrText)⟩
  | .exited true _ stdoutLines =>
    .ok (cymruParseStdout stdoutLines)

/-! ## Provider selector (src/main.rs) -/

/-- The three concrete providers. -/
inductive Provider where
  | ripe
  | ipapi
  | cymruWhois
deriving DecidableEq, Repr

/-- `create_asn_fetcher` from src/main.rs (lines 6-22). Constructor
outcomes of `Ripe::new` / `IPApi::new` are passed in as oracles; the
returned `Bool` records whether the unknown-provider advisory notice was
printed to stderr. -/
def create_asn_fetcher (source : String)
    (ripeNew ipapiNew : Except String Unit) :
    Except String (Provider × Bool) :=
  if source = "ipapi" then
    match ipapiNew with
    | .ok _ => .ok (Provider.ipapi, false)
    | .error e => .error e
  else if source = "cymru-whois" then
    .ok (Provider.cymruWhois, false)
  else if source = "ripe" then
    match ripeNew with
    | .ok _ => .ok (Provider.ripe, false)
    | .error e => .error e
  else
    match ripeNew with
    | .ok _ => .ok (Provider.ripe, true)
    | .error e => .error e

/-! ## Concrete inputs used as witnesses and counterexamples -/

/-- Captured whois stdout: header, a malformed 2-field line, then a
well-formed 3-field line. -/
def cymruMixedStdout : List String :=
  ["AS | IP | AS Name", "3561 | 216.90.108.31",
   "13335 | 1.1.1.1 | CLOUDFLARENET, US"]

/-- The spec's Provider A example body:
`{"data":{"asns":[{"asn":15169,"holder":"Google LLC"},
{"asn":13335,"holder":"Cloudflare, Inc."}]}}`. -/
def ripeExampleData : Json :=
  Json.obj [("asns", Json.arr
    [Json.obj [("asn", Json.num 15169), ("holder", Json.str "Google LLC")],
     Json.obj [("asn", Json.num 13335), ("holder", Json.str "Cloudflare, Inc.")]])]

/-- The example body wrapped in its top-level `data` object. -/
def ripeExampleJson : Json :=
  Json.obj [("data", ripeExampleData)]

/-- An in-band IPApi failure body: `{"error":true,"reason":"RateLimited"}`. -/
def ipapiErrJson : Json :=
  Json.obj [("error", Json.bool true), ("reason", Json.str "RateLimited")]

/-- The spec's Provider B success example body:
`{"ip":"8.8.8.8","city":"Mountain View"}`. -/
def ipapiPlainJson : Json :=
  Json.obj [("ip", Json.str "8.8.8.8"), ("city", Json.str "Mountain View")]

/-- A body whose `error` field is the string `"true"`, not a boolean. -/
def ipapiStrErrJson : Json :=
  Json.obj [("error", Json.str "true")]

/-! ## Helper lemmas -/

/-- `map_while` keeps exactly the longest prefix on which `f` succeeds. -/
theorem mapWhile_eq_filterMap_takeWhile {α β : Type} (f : α → Option β) (xs : List α) :
    mapWhile f xs = (xs.takeWhile fun a => (f a).isSome).filterMap f := by
  induction xs with
  | nil => rfl
  | cons a rest ih =>
    cases h : f a <;>
      simp [mapWhile, List.takeWhile, h, ih]

/-- A list is a Boolean prefix of itself followed by anything. -/
theorem isPrefixList_append (p r : List Char) : isPrefixList p (p ++ r) = true := by
  induction p with
  | nil => rfl
  | cons c cs ih => simp [isPrefixList, ih]

/-- Appending a suffix to a string keeps the string as a leading part. -/
theorem strStartsWith_append (p r : String) : strStartsWith (p ++ r) p = true := by
  cases p with
  | mk pd =>
    cases r with
    | mk rd =>
      simpa [strStartsWith, String.append] using isPrefixList_append pd rd

/-- Both `TeamCymruWhois` error messages go through `format_provider_error`
and hence begin with the provider tag. -/
theorem cymru_msg_tagged (m : String) :
    strStartsWith (format_provider_error "TeamCymruWhois" m) "[TeamCymruWhois] " = true :=
  strStartsWith_append "[TeamCymruWhois] " m

/-- The success branch of `ipapiProcess`, reached whenever the parsed
body's `error` field is not the boolean `true`. -/
theorem ipapiProcess_success_eq (response : HttpResponse) (json : Json)
    (hs : response.statusSuccess = true)
    (hb : (json.get "error").bind Json.asBool ≠ some true) :
    ipapiProcess response (some json)
      = .ok [⟨((json.get "asn").bind Json.asStr).getD "Unknown",
             ((json.get "org").bind Json.asStr).getD "Unknown"⟩] := by
  cases hberr : (json.get "error").bind Json.asBool with
  | none => simp [ipapiProcess, hs, hberr]
  | some b =>
    cases b with
    | false => simp [ipapiProcess, hs, hberr]
    | true => exact absurd hberr hb

/-! ## C1 — TeamCymruWhois line handling -/

/-- Claim C1 counterexample: on stdout with a malformed second line
followed by a well-formed third line, `lookup_asn` returns no records,
whereas the claimed filter-map over the non-header lines keeps the
well-formed third line. -/
theorem C1_counterexample :
    cymruParseStdout cymruMixedStdout = [] ∧
    (cymruMixedStdout.drop 1).filterMap parse_asn_info
      = [⟨"13335", "CLOUDFLARENET, US"⟩] ∧
    cymruParseStdout cymruMixedStdout
      ≠ (cymruMixedStdout.drop 1).filterMap parse_asn_info :=
  ⟨by decide, by decide, by decide⟩

/-- Claim C1 (amended): after discarding the header line, lines are
parsed in order and parsing stops at the first line that does not split
on `|` into exactly 3 fields; the result is the filter-map of
`parse_asn_info` over the longest prefix of well-formed lines, each
yielding the first field trimmed as `asn` and the third field trimmed
as `holder`. Lines after the first malformed one are dropped. -/
theorem C1_cymru_stops_at_first_malformed (stdoutLines : List String) :
    cymruParseStdout stdoutLines
      = ((stdoutLines.drop 1).takeWhile fun l => (parse_asn_info l).isSome).filterMap
          parse_asn_info :=
  mapWhile_eq_filterMap_takeWhile parse_asn_info (stdoutLines.drop 1)

/-! ## C2 — provider-prefixed error messages -/

/-- Claim C2 counterexample: Provider A's self-emitted missing-`data`
error message is exactly `Missing 'data' field in response`, which does
not begin with `[Ripe] `. -/
theorem C2_counterexample :
    ripeProcess (Json.obj [("status", Json.str "ok")])
      = .error ⟨.invalidData, "Missing 'data' field in response"⟩ ∧
    strStartsWith "Missing 'data' field in response" "[Ripe] " = false :=
  ⟨rfl, by decide⟩

/-- Claim C2 (amended): only Provider C prefixes its self-emitted error
messages with `[TeamCymruWhois] `; Providers A and B emit their messages
without a provider-name prefix — every Ripe self-emitted message is one
of the two bare `Missing ...` strings, and every IPApi self-emitted
message begins with `HTTP error: `, `API returned non-JSON response: `
or `API error: `. -/
theorem C2_only_cymru_prefixed (spawn : SpawnResult) (e : IoError)
    (h : cymruLookup spawn = .error e) :
    strStartsWith e.msg "[TeamCymruWhois] " = true ∧
    (∀ json e2, ripeProcess json = .error e2 →
      e2.msg = "Missing 'data' field in response" ∨
      e2.msg = "Missing or invalid 'asns' field in response") ∧
    (∀ response parsed e3, ipapiProcess response parsed = .error e3 →
      (∃ rest, e3.msg = "HTTP error: " ++ rest) ∨
      (∃ rest, e3.msg = "API returned non-JSON response: " ++ rest) ∨
      (∃ rest, e3.msg = "API error: " ++ rest)) := by
  refine ⟨?_, ?_, ?_⟩
  · cases spawn with
    | spawnError os =>
      have he := Except.error.inj h
      rw [← he]
      exact cymru_msg_tagged _
    | exited success stderrText stdoutLines =>
      cases success with
      | false =>
        have he := Except.error.inj h
        rw [← he]
        exact cymru_msg_tagged _
      | true => exact absurd h (by simp [cymruLookup])
  · intro json e2 h2
    cases hd : json.get "data" with
    | none =>
      simp only [ripeProcess, hd] at h2
      exact Or.inl (congrArg IoError.msg (Except.error.inj h2)).symm
    | some data =>
      cases ha : (data.get "asns").bind Json.asArr with
      | none =>
        simp only [ripeProcess, hd, ha] at h2
        exact Or.inr (congrArg IoError.msg (Except.error.inj h2)).symm
      | some arr =>
        simp only [ripeProcess, hd, ha] at h2
        exact absurd h2 (by simp)
  · intro response parsed e3 h3
    by_cases hs : response.statusSuccess = false
    · simp only [ipapiProcess, if_pos hs] at h3
      exact Or.inl ⟨response.statusText,
        (congrArg IoError.msg (Except.error.inj h3)).symm⟩
    · cases parsed with
      | none =>
        simp only [ipapiProcess, if_neg hs] at h3
        exact Or.inr (Or.inl ⟨response.body,
          (congrArg IoError.msg (Except.error.inj h3)).symm⟩)
      | some json =>
        cases hb : (json.get "error").bind Json.asBool with
        | none =>
          simp only [ipapiProcess, if_neg hs, hb] at h3
          exact absurd h3 (by simp)
        | some b =>
          cases b with
          | false =>
            simp only [ipapiProcess, if_neg hs, hb] at h3
            exact absurd h3 (by simp)
          | true =>
            simp only [ipapiProcess, if_neg hs, hb] at h3
            exact Or.inr (Or.inr
              ⟨((json.get "reason").bind Json.asStr).getD "Unknown error",
               (congrArg IoError.msg (Except.error.inj h3)).symm⟩)

/-- Witness for the amended C2 at a concrete spawn failure. -/
theorem C2_only_cymru_prefixed_witness :
    strStartsWith
      (IoError.msg ⟨.other,
        "[TeamCymruWhois] Command failed: no such file, is whois installed?"⟩)
      "[TeamCymruWhois] " = true :=
  (C2_only_cymru_prefixed (.spawnError "no such file")
    ⟨.other, "[TeamCymruWhois] Command failed: no such file, is whois installed?"⟩
    (by rfl)).1

/-! ## C3 — IPApi request URL and the environment -/

/-- Claim C3 counterexample: two environments that differ only in
`IPAPI_API_KEY` make `lookup_asn` build different request URLs for the
same IP — the core reads the environment at call time. -/
theorem C3_counterexample :
    ipapiUrl [("IPAPI_API_KEY", "secret")] "8.8.8.8"
      = "https://ipapi.co/8.8.8.8/json?key=secret" ∧
    ipapiUrl [] "8.8.8.8" = "https://ipapi.co/8.8.8.8/json" ∧
    ipapiUrl [("IPAPI_API_KEY", "secret")] "8.8.8.8" ≠ ipapiUrl [] "8.8.8.8" :=
  ⟨rfl, rfl, by decide⟩

/-- Claim C3 (amended): the request URL is a function of the IP and of
the value of `IPAPI_API_KEY` in the process environment at lookup time
(not of a construction-time configuration): environments agreeing on
that variable yield the same URL, which is
`https://ipapi.co/{ip}/json` with `?key={apiKey}` appended exactly when
the variable is set. -/
theorem C3_ipapi_url_from_env (env1 env2 : List (String × String)) (ip : String)
    (h : lookupEnv env1 "IPAPI_API_KEY" = lookupEnv env2 "IPAPI_API_KEY") :
    ipapiUrl env1 ip = ipapiUrl env2 ip ∧
    (∀ api_key, lookupEnv env1 "IPAPI_API_KEY" = some api_key →
      ipapiUrl env1 ip = "https://ipapi.co/" ++ ip ++ "/json?key=" ++ api_key) ∧
    (lookupEnv env1 "IPAPI_API_KEY" = none →
      ipapiUrl env1 ip = "https://ipapi.co/" ++ ip ++ "/json") := by
  refine ⟨by rw [ipapiUrl, ipapiUrl, h], ?_, ?_⟩
  · intro api_key hk
    rw [ipapiUrl, hk]
  · intro hk
    rw [ipapiUrl, hk]

/-- Witness for the amended C3 at two concrete agreeing environments. -/
theorem C3_ipapi_url_from_env_witness :
    ipapiUrl [("IPAPI_API_KEY", "k")] "8.8.8.8"
      = ipapiUrl [("HOME", "/root"), ("IPAPI_API_KEY", "k")] "8.8.8.8" :=
  (C3_ipapi_url_from_env [("IPAPI_API_KEY", "k")]
    [("HOME", "/root"), ("IPAPI_API_KEY", "k")] "8.8.8.8" (by decide)).1

/-! ## C4 — Ripe container-level errors -/

/-- Claim C4: `Ripe::lookup_asn` fails with `InvalidData` and message
`Missing 'data' field in response` exactly when the top-level `data`
field is absent, and with `InvalidData` and message
`Missing or invalid 'asns' field in response` exactly when `data` is
present but its `asns` field is absent or not an array; no other
response shape triggers these errors. -/
theorem C4_ripe_container_errors (json_data : Json) :
    (ripeProcess json_data
        = .error ⟨.invalidData, "Missing 'data' field in response"⟩
      ↔ json_data.get "data" = none) ∧
    (ripeProcess json_data
        = .error ⟨.invalidData, "Missing or invalid 'asns' field in response"⟩
      ↔ ∃ data, json_data.get "data" = some data ∧
          (data.get "asns").bind Json.asArr = none) := by
  have hne : ("Missing 'data' field in response" : String)
      ≠ "Missing or invalid 'asns' field in response" := by decide
  cases hd : json_data.get "data" with
  | none => simp [ripeProcess, hd, hne]
  | some data =>
    cases hg : data.get "asns" with
    | none => simp [ripeProcess, hd, hg, hne, Ne.symm hne]
    | some x =>
      cases hx : x.asArr with
      | none => simp [ripeProcess, hd, hg, hx, hne, Ne.symm hne]
      | some arr => simp [ripeProcess, hd, hg, hx]

/-! ## C5 — Ripe success path -/

/-- Claim C5: whenever the response has a `data.asns` array,
`Ripe::lookup_asn` succeeds with exactly one record per array element in
array order; a record's `asn` is the element's `asn` field rendered in
decimal when it is a valid unsigned number and `N/A` otherwise, and its
`holder` is the element's `holder` field verbatim when it is a string
and `Unknown` otherwise; no leaf-field absence or wrong type fails the
call. -/
theorem C5_ripe_success (json_data data : Json) (asns_array : List Json)
    (h1 : json_data.get "data" = some data)
    (h2 : (data.get "asns").bind Json.asArr = some asns_array) :
    ripeProcess json_data = .ok (asns_array.map ripeRecord) ∧
    (∀ asn_obj n, (asn_obj.index "asn").asU64 = some n →
      (ripeRecord asn_obj).asn = Nat.repr n) ∧
    (∀ asn_obj, (asn_obj.index "asn").asU64 = none →
      (ripeRecord asn_obj).asn = "N/A") ∧
    (∀ asn_obj s, (asn_obj.index "holder").asStr = some s →
      (ripeRecord asn_obj).holder = s) ∧
    (∀ asn_obj, (asn_obj.index "holder").asStr = none →
      (ripeRecord asn_obj).holder = "Unknown") := by
  refine ⟨by simp [ripeProcess, h1, h2], ?_, ?_, ?_, ?_⟩
  · intro asn_obj n hn
    simp [ripeRecord, hn]
  · intro asn_obj hn
    simp [ripeRecord, hn]
  · intro asn_obj s hs
    simp [ripeRecord, hs]
  · intro asn_obj hs
    simp [ripeRecord, hs]

/-- Witness for C5 at the spec's Google/Cloudflare example body. -/
theorem C5_ripe_success_witness :
    ripeProcess ripeExampleJson
      = .ok [⟨"15169", "Google LLC"⟩, ⟨"13335", "Cloudflare, Inc."⟩] := by
  have h := C5_ripe_success ripeExampleJson ripeExampleData
    [Json.obj [("asn", Json.num 15169), ("holder", Json.str "Google LLC")],
     Json.obj [("asn", Json.num 13335), ("holder", Json.str "Cloudflare, Inc.")]]
    (by rfl) (by rfl)
  exact h.1.trans (by rfl)

/-! ## C6 — IPApi failure classification order -/

/-- Claim C6: `IPApi::lookup_asn` classifies failures in order: a
non-success HTTP status fails with kind `Other` embedding the status;
otherwise a body that does not parse as JSON fails with `InvalidData`
embedding the raw body verbatim; otherwise a parsed body whose `error`
field is the boolean `true` fails with kind `Other` whose message
contains the `reason` field's string value, or `Unknown error` when
`reason` is absent. -/
theorem C6_ipapi_error_order (response : HttpResponse) (parsed : Option Json)
    (json : Json) :
    (response.statusSuccess = false →
      ipapiProcess response parsed
        = .error ⟨.other, "HTTP error: " ++ response.statusText⟩) ∧
    (response.statusSuccess = true →
      ipapiProcess response none
        = .error ⟨.invalidData, "API returned non-JSON response: " ++ response.body⟩) ∧
    (response.statusSuccess = true → json.get "error" = some (Json.bool true) →
      (∀ s, json.get "reason" = some (Json.str s) →
        ipapiProcess response (some json) = .error ⟨.other, "API error: " ++ s⟩) ∧
      (json.get "reason" = none →
        ipapiProcess response (some json)
          = .error ⟨.other, "API error: Unknown error"⟩)) := by
  refine ⟨?_, ?_, ?_⟩
  · intro hs
    simp [ipapiProcess, hs]
  · intro hs
    simp [ipapiProcess, hs]
  · intro hs herr
    constructor
    · intro s hr
      simp [ipapiProcess, hs, herr, hr, Json.asBool, Json.asStr]
    · intro hr
      simp [ipapiProcess, hs, herr, hr, Json.asBool]

/-- Witness for C6 at the spec's rate-limit example body
`{"error":true,"reason":"RateLimited"}` on a successful HTTP status. -/
theorem C6_ipapi_error_order_witness :
    ipapiProcess ⟨true, "200 OK", "body"⟩ (some ipapiErrJson)
      = .error ⟨.other, "API error: RateLimited"⟩ := by
  have h := (C6_ipapi_error_order ⟨true, "200 OK", "body"⟩
    (some ipapiErrJson) ipapiErrJson).2.2 rfl (by rfl)
  exact (h.1 "RateLimited" (by rfl)).trans (by rfl)

/-! ## C7 — IPApi success path -/

/-- Claim C7: for every parsed body that does not trigger a failure
branch, `IPApi::lookup_asn` succeeds with exactly one record whose `asn`
is the `asn` field's value when present as a string and `Unknown`
otherwise, and whose `holder` is the `org` field's value when present as
a string and `Unknown` otherwise; no missing or wrongly-typed leaf field
fails the success path. -/
theorem C7_ipapi_success (response : HttpResponse) (json : Json)
    (hs : response.statusSuccess = true)
    (he : (json.get "error").bind Json.asBool ≠ some true) :
    ipapiProcess response (some json)
      = .ok [⟨((json.get "asn").bind Json.asStr).getD "Unknown",
             ((json.get "org").bind Json.asStr).getD "Unknown"⟩] :=
  ipapiProcess_success_eq response json hs he

/-- Witness for C7 at the spec's example body
`{"ip":"8.8.8.8","city":"Mountain View"}`. -/
theorem C7_ipapi_success_witness :
    ipapiProcess ⟨true, "200 OK", ""⟩ (some ipapiPlainJson)
      = .ok [⟨"Unknown", "Unknown"⟩] := by
  have h := C7_ipapi_success ⟨true, "200 OK", ""⟩ ipapiPlainJson rfl (by decide)
  exact h.trans (by rfl)

/-! ## C8 — provider selector -/

/-- Claim C8: `create_asn_fetcher` is a case-sensitive total mapping:
`ipapi` selects Provider B, `cymru-whois` selects Provider C, and `ripe`
as well as every other string selects Provider A; an unrecognized string
never fails selection itself (it only emits the advisory notice,
recorded in the `Bool`), and a constructor failure of Provider A or B
propagates unchanged. -/
theorem C8_selector (source : String) (ripeNew ipapiNew : Except String Unit) :
    (∀ u, ipapiNew = .ok u →
      create_asn_fetcher "ipapi" ripeNew ipapiNew = .ok (Provider.ipapi, false)) ∧
    (∀ e, ipapiNew = .error e →
      create_asn_fetcher "ipapi" ripeNew ipapiNew = .error e) ∧
    create_asn_fetcher "cymru-whois" ripeNew ipapiNew
      = .ok (Provider.cymruWhois, false) ∧
    (∀ u, ripeNew = .ok u →
      create_asn_fetcher "ripe" ripeNew ipapiNew = .ok (Provider.ripe, false)) ∧
    (∀ e, ripeNew = .error e →
      create_asn_fetcher "ripe" ripeNew ipapiNew = .error e) ∧
    (source ≠ "ipapi" → source ≠ "cymru-whois" → source ≠ "ripe" →
      (∀ u, ripeNew = .ok u →
        create_asn_fetcher source ripeNew ipapiNew = .ok (Provider.ripe, true)) ∧
      (∀ e, ripeNew = .error e →
        create_asn_fetcher source ripeNew ipapiNew = .error e)) := by
  refine ⟨?_, ?_, ?_, ?_, ?_, ?_⟩
  · intro u hu
    subst hu
    rfl
  · intro e hei
    subst hei
    rfl
  · rfl
  · intro u hr
    subst hr
    rfl
  · intro e her
    subst her
    rfl
  · intro h1 h2 h3
    constructor
    · intro u hr
      subst hr
      simp only [create_asn_fetcher, if_neg h1, if_neg h2, if_neg h3]
    · intro e her
      subst her
      simp only [create_asn_fetcher, if_neg h1, if_neg h2, if_neg h3]

/-- Witness for C8: the unrecognized source `bogus` resolves to Provider
A with the advisory notice and without error. -/
theorem C8_selector_witness :
    create_asn_fetcher "bogus" (.ok ()) (.ok ()) = .ok (Provider.ripe, true) :=
  ((C8_selector "bogus" (.ok ()) (.ok ())).2.2.2.2.2
    (by decide) (by decide) (by decide)).1 () rfl

/-! ## C9 — totality and empty-output edge cases -/

/-- Claim C9: every lookup is total on its upstream payload — it returns
`Ok` with a record list or `Err` with an error value and nothing else;
Provider A's field indexing into non-object array elements falls back to
sentinels instead of failing, and an empty or header-only Provider C
output yields an empty record list rather than an error. -/
theorem C9_lookup_total (json_data : Json) (response : HttpResponse)
    (parsed : Option Json) (spawn : SpawnResult)
    (stderrText headerLine : String) (n : Int) (s : String) :
    ((∃ recs, ripeProcess json_data = .ok recs) ∨
      (∃ e, ripeProcess json_data = .error e)) ∧
    ((∃ recs, ipapiProcess response parsed = .ok recs) ∨
      (∃ e, ipapiProcess response parsed = .error e)) ∧
    ((∃ recs, cymruLookup spawn = .ok recs) ∨
      (∃ e, cymruLookup spawn = .error e)) ∧
    ripeRecord (Json.num n) = ⟨"N/A", "Unknown"⟩ ∧
    ripeRecord (Json.str s) = ⟨"N/A", "Unknown"⟩ ∧
    cymruLookup (.exited true stderrText []) = .ok [] ∧
    cymruLookup (.exited true stderrText [headerLine]) = .ok [] := by
  refine ⟨?_, ?_, ?_, rfl, rfl, rfl, rfl⟩
  · cases h : ripeProcess json_data with
    | ok recs => exact Or.inl ⟨recs, rfl⟩
    | error e => exact Or.inr ⟨e, rfl⟩
  · cases h : ipapiProcess response parsed with
    | ok recs => exact Or.inl ⟨recs, rfl⟩
    | error e => exact Or.inr ⟨e, rfl⟩
  · cases h : cymruLookup spawn with
    | ok recs => exact Or.inl ⟨recs, rfl⟩
    | error e => exact Or.inr ⟨e, rfl⟩

/-! ## C10 — IPApi in-band failure gate -/

/-- Claim C10: the in-band failure branch of `IPApi::lookup_asn` is taken
only when the parsed body's `error` field is exactly the JSON boolean
`true`: if the field holds the boolean `false`, a string, a number, or
any other non-boolean value, the field is ignored and the lookup
proceeds to the success path with exactly one record. -/
theorem C10_ipapi_error_gate (response : HttpResponse) (json j : Json)
    (hs : response.statusSuccess = true)
    (hj : json.get "error" = some j) (hne : j ≠ Json.bool true) :
    ∃ rec, ipapiProcess response (some json) = .ok [rec] := by
  have hb : (json.get "error").bind Json.asBool ≠ some true := by
    rw [hj]
    cases j with
    | bool b =>
      cases b with
      | false => simp [Json.asBool]
      | true => exact absurd rfl hne
    | null => simp [Json.asBool]
    | num m => simp [Json.asBool]
    | str t => simp [Json.asBool]
    | arr xs => simp [Json.asBool]
    | obj fields => simp [Json.asBool]
  exact ⟨_, ipapiProcess_success_eq response json hs hb⟩

/-- Witness for C10 at the body `{"error":"true"}` whose `error` field is
a string, not a boolean. -/
theorem C10_ipapi_error_gate_witness :
    ∃ rec, ipapiProcess ⟨true, "200 OK", ""⟩ (some ipapiStrErrJson) = .ok [rec] :=
  C10_ipapi_error_gate ⟨true, "200 OK", ""⟩ ipapiStrErrJson (Json.str "true")
    rfl (by rfl) (fun h => Json.noConfusion h)

end AsnFetcher
